import Mathlib

/-!
Verification of the bike-tracker server (`src/main.go`), a minimal real-time
location broadcast service: clients POST GPS fixes, the server persists them
into a SQLite table and fans them out to WebSocket viewers held in a
process-wide connection registry.

The Go code is shallowly embedded below:
* JSON documents are the inductive `Json` (numbers carried as `Rat`, which is
  exact for all the decimal literals the handlers touch; no arithmetic is ever
  performed on coordinates, they are only carried through).
* The `positions` SQLite table is an insertion-ordered `List GPSPosition`
  (the table has an AUTOINCREMENT id and `created_at DEFAULT CURRENT_TIMESTAMP`,
  and both queries order by `created_at`, i.e. by insertion order).
* External failures (a failing `db.Exec`/`db.Query`, a failing
  `conn.WriteJSON`) are Boolean parameters of the embedded handlers.
* The registry `connections : map[*websocket.Conn]bool` is a list of abstract
  connection identifiers; per-handler effects are recorded in explicit traces.
-/

namespace BikeTracker

/-- Abstract identity of one `*websocket.Conn`. -/
abbrev Conn := Nat

/-- JSON values, covering the subset the handlers read and write.
Numbers are carried as exact rationals. -/
inductive Json where
  | null : Json
  | num (q : Rat) : Json
  | str (s : String) : Json
  | arr (xs : List Json) : Json
  | obj (fields : List (String × Json)) : Json

/-- `type GPSPosition struct` of `src/main.go` (lines 22–26): latitude and
longitude are `float64` (modelled as `Rat`), timestamp is `int64`. -/
structure GPSPosition where
  latitude : Rat
  longitude : Rat
  timestamp : Int
  deriving DecidableEq, Repr

/-- The zero value of the Go struct `GPSPosition`, as produced by
`var position GPSPosition`. -/
def zeroPosition : GPSPosition := { latitude := 0, longitude := 0, timestamp := 0 }

/-- One field of a JSON object applied to a partially decoded `GPSPosition`,
following Go `encoding/json` unmarshalling into the struct:
a known field must carry a number (a JSON `null` leaves the value unchanged,
any other type is a decode error; a number with a fractional part cannot enter
the `int64` timestamp), unknown fields are ignored, later duplicates override
earlier ones.  The model restricts itself to exact-case keys (Go would also
match case-insensitively; the handlers and claims only exercise exact keys). -/
def applyField (p : GPSPosition) : String × Json → Option GPSPosition
  | ("latitude", Json.num q) => some { p with latitude := q }
  | ("latitude", Json.null) => some p
  | ("latitude", _) => none
  | ("longitude", Json.num q) => some { p with longitude := q }
  | ("longitude", Json.null) => some p
  | ("longitude", _) => none
  | ("timestamp", Json.num q) =>
      if q.den = 1 then some { p with timestamp := q.num } else none
  | ("timestamp", Json.null) => some p
  | ("timestamp", _) => none
  | (_, _) => some p

/-- Fold `applyField` over the fields of a JSON object, in document order. -/
def decodeFields : GPSPosition → List (String × Json) → Option GPSPosition
  | p, [] => some p
  | p, f :: rest =>
    match applyField p f with
    | none => none
    | some p2 => decodeFields p2 rest

/-- `json.NewDecoder(r.Body).Decode(&position)` (src/main.go line 118): a JSON
object decodes field by field starting from the zero struct, the literal `null`
is a successful no-op, and any other top-level value is a decode error. -/
def decodeGPSPosition : Json → Option GPSPosition
  | Json.null => some zeroPosition
  | Json.obj fields => decodeFields zeroPosition fields
  | _ => none

/-- Go JSON encoding of a `GPSPosition` (struct field order). -/
def encodeGPSPosition (p : GPSPosition) : Json :=
  Json.obj [("latitude", Json.num p.latitude),
            ("longitude", Json.num p.longitude),
            ("timestamp", Json.num (p.timestamp : Rat))]

/-- Go JSON encoding of the `[]GPSPosition` slice built by `handleHistory`:
the slice is declared `var positions []GPSPosition` and stays `nil` when no
row is appended, and `encoding/json` marshals a nil slice as `null`, not as
`[]`. -/
def encodePositionsSlice (ps : List GPSPosition) : Json :=
  if ps.isEmpty then Json.null else Json.arr (ps.map encodeGPSPosition)

/-- A response body: `http.Error` writes plain text, the handlers otherwise
write JSON. -/
inductive Body where
  | jsonBody (j : Json) : Body
  | textBody (s : String) : Body

/-- An HTTP response: status code and body. -/
structure Response where
  status : Nat
  body : Body

/-- Result of one `broadcastPosition` call over a snapshot of the registry:
the registry after the loop, the connections whose `WriteJSON` succeeded
(they received the position), and the connections that were closed and
deleted because their `WriteJSON` failed. -/
structure BroadcastResult where
  registry : List Conn
  delivered : List Conn
  closed : List Conn
  deriving DecidableEq, Repr

/-- `broadcastPosition` (src/main.go lines 139–150): under `connMutex.RLock`,
range over `connections`; a successful `conn.WriteJSON(position)` leaves the
connection registered, a failed one closes the connection and deletes it from
the map, and the loop continues with the remaining connections either way.
`writeOk c` states whether `WriteJSON` to `c` succeeds. -/
def broadcastPosition (writeOk : Conn → Bool) : List Conn → BroadcastResult
  | [] => { registry := [], delivered := [], closed := [] }
  | c :: rest =>
    let r := broadcastPosition writeOk rest
    if writeOk c then
      { registry := c :: r.registry, delivered := c :: r.delivered, closed := r.closed }
    else
      { registry := r.registry, delivered := r.delivered, closed := c :: r.closed }

/-- Lock acquisition modes of `sync.RWMutex`. -/
inductive LockMode where
  | shared
  | exclusive
  deriving DecidableEq, Repr

/-- Whether `sync.RWMutex` lets two holders overlap: only two shared
(`RLock`) holders may. -/
def locksCompatible : LockMode → LockMode → Bool
  | LockMode.shared, LockMode.shared => true
  | _, _ => false

/-- The mode `broadcastPosition` holds on `connMutex` for its whole
iterate-and-delete loop: `connMutex.RLock()` (src/main.go line 140). -/
def broadcastAcquires : LockMode := LockMode.shared

/-- The mode `handleWebSocket` holds on `connMutex` to register a
connection: `connMutex.Lock()` (src/main.go line 98). -/
def registerAcquires : LockMode := LockMode.exclusive

/-- The mode `handleWebSocket` holds on `connMutex` to deregister a
connection: `connMutex.Lock()` (src/main.go line 91). -/
def deregisterAcquires : LockMode := LockMode.exclusive

/-- The connections a `broadcastPosition` call deletes from the shared
`connections` map during its iteration. -/
def broadcastDeletions (writeOk : Conn → Bool) (conns : List Conn) : List Conn :=
  (broadcastPosition writeOk conns).closed

/-- The mutable state `handlePosition` touches: the `positions` table and the
`connections` registry. -/
structure ServerState where
  store : List GPSPosition
  connections : List Conn
  deriving DecidableEq, Repr

/-- The externally visible side effects of one `handlePosition` call, in the
order the handler performs them: a successful INSERT into the `positions`
table, then a fan-out of the position over the registry. -/
inductive Effect where
  | savePos (p : GPSPosition) : Effect
  | broadcast (p : GPSPosition) : Effect
  deriving DecidableEq, Repr

/-- `savePosition` (src/main.go lines 180–184): `db.Exec` of the INSERT;
`saveOk` states whether the underlying write succeeds.  On success the row is
appended to the table, on failure nothing is stored and the error is
returned. -/
def savePosition (saveOk : Bool) (p : GPSPosition) (store : List GPSPosition) :
    Option (List GPSPosition) :=
  if saveOk then some (store ++ [p]) else none

/-- `handlePosition` (src/main.go lines 111–137): reject a non-POST with 405;
decode the body (invalid JSON is a 400); overwrite the timestamp with the
current server time `now`; persist (failure is a 500 and the handler returns
before broadcasting); broadcast to the registry; answer 200 with
`status: ok`.  `body = none` models a request body that is not valid JSON.
The returned trace lists the successful external effects in order. -/
def handlePosition (writeOk : Conn → Bool) (saveOk : Bool) (now : Int)
    (method : String) (body : Option Json) (st : ServerState) :
    Response × ServerState × List Effect :=
  if method ≠ "POST" then
    ({ status := 405, body := Body.textBody "Method not allowed" }, st, [])
  else
    match body.bind decodeGPSPosition with
    | none => ({ status := 400, body := Body.textBody "Invalid JSON" }, st, [])
    | some p0 =>
      let p := { p0 with timestamp := now }
      match savePosition saveOk p st.store with
      | none =>
          ({ status := 500, body := Body.textBody "Failed to save position" }, st, [])
      | some store2 =>
          let br := broadcastPosition writeOk st.connections
          ({ status := 200,
             body := Body.jsonBody (Json.obj [("status", Json.str "ok")]) },
           { store := store2, connections := br.registry },
           [Effect.savePos p, Effect.broadcast p])

/-- The hardcoded fallback map style of `handleConfig`. -/
def defaultMapStyle : String :=
  "https://vector.openstreetmap.org/shortbread_v1/tilejson.json"

/-- `handleConfig` (src/main.go lines 152–164): read `MAP_STYLE` from the
environment (`env`; `os.Getenv` yields `""` when unset), fall back to the
hardcoded default, and answer with the JSON config.  The handler never looks
at `r.Method`. -/
def handleConfig (method : String) (env : String) : Response :=
  let mapStyle := if env = "" then defaultMapStyle else env
  { status := 200,
    body := Body.jsonBody (Json.obj [("mapStyle", Json.str mapStyle)]) }

/-- `handleHistory` (src/main.go lines 186–213): reject a non-GET with 405;
a failing `db.Query` (`queryOk = false`) is a 500; otherwise scan all rows of
`SELECT ... ORDER BY created_at` (insertion order) into a `nil`-initialised
slice and JSON-encode it. -/
def handleHistory (method : String) (queryOk : Bool) (store : List GPSPosition) :
    Response :=
  if method ≠ "GET" then
    { status := 405, body := Body.textBody "Method not allowed" }
  else if !queryOk then
    { status := 500, body := Body.textBody "Failed to fetch history" }
  else
    { status := 200, body := Body.jsonBody (encodePositionsSlice store) }

/-- `handleLastPosition` (src/main.go lines 215–238): reject a non-GET with
405; a failing query other than `sql.ErrNoRows` (`queryOk = false`) is a 500;
`sql.ErrNoRows` (empty table) answers 200 with `Encode(nil)`, i.e. the JSON
literal `null`; otherwise answer 200 with the row of
`SELECT ... ORDER BY created_at DESC LIMIT 1`, the most recently inserted
position. -/
def handleLastPosition (method : String) (queryOk : Bool)
    (store : List GPSPosition) : Response :=
  if method ≠ "GET" then
    { status := 405, body := Body.textBody "Method not allowed" }
  else if !queryOk then
    { status := 500, body := Body.textBody "Failed to fetch last position" }
  else
    match store.getLast? with
    | none => { status := 200, body := Body.jsonBody Json.null }
    | some p => { status := 200, body := Body.jsonBody (encodeGPSPosition p) }

/-- The observable steps of one `handleWebSocket` call, in order. -/
inductive WsEvent where
  | registered (c : Conn) : WsEvent
  | readIgnored : WsEvent
  | closed (c : Conn) : WsEvent
  | deregistered (c : Conn) : WsEvent
  deriving DecidableEq, Repr

/-- `handleWebSocket` (src/main.go lines 83–109): a failed upgrade
(`upgraded = none`) returns at once, before the deferred cleanup is installed
and before registration — the registry is untouched.  A successful upgrade
yields a fresh connection `c`: it is registered under `connMutex.Lock`, then
the handler blocks reading; each successful `ReadMessage` is discarded
(`reads` counts them) and the first read error breaks the loop, after which
the deferred function closes the connection and deletes it from the
registry. -/
def handleWebSocket (upgraded : Option Conn) (reads : Nat)
    (registry : List Conn) : List Conn × List WsEvent :=
  match upgraded with
  | none => (registry, [])
  | some c =>
      let regAfter := registry ++ [c]
      (regAfter.filter (fun x => x != c),
       [WsEvent.registered c] ++ List.replicate reads WsEvent.readIgnored
         ++ [WsEvent.closed c, WsEvent.deregistered c])

/-- The ingress payload of the round-trip scenario in section 8 of the spec:
`latitude 52.52, longitude 13.405`. -/
def roundTripPayload : Json :=
  Json.obj [("latitude", Json.num (52.52 : Rat)),
            ("longitude", Json.num (13.405 : Rat))]

/-- The position the round-trip payload becomes after the server stamps it at
time `now`. -/
def roundTripPosition (now : Int) : GPSPosition :=
  { latitude := (52.52 : Rat), longitude := (13.405 : Rat), timestamp := now }

/-- C1: in one `broadcastPosition` call, every connection whose transmit fails
is closed and deleted from the registry (so it is absent for all subsequent
broadcasts, which iterate the resulting registry), while the position is still
delivered to exactly the connections whose transmit succeeds — one failing
peer never aborts delivery to the rest. -/
theorem broadcastPosition_prunes_failed_and_delivers_rest
    (writeOk : Conn → Bool) (conns : List Conn) :
    (broadcastPosition writeOk conns).registry = conns.filter writeOk ∧
    (broadcastPosition writeOk conns).delivered = conns.filter writeOk ∧
    (broadcastPosition writeOk conns).closed =
      conns.filter (fun c => !(writeOk c)) := by
  induction conns with
  | nil => exact ⟨rfl, rfl, rfl⟩
  | cons c rest ih =>
    rcases ih with ⟨h1, h2, h3⟩
    by_cases h : writeOk c = true <;>
      simp [broadcastPosition, List.filter_cons, h, h1, h2, h3]

/-- C2: `broadcastPosition` deletes failed connections from the shared
`connections` map while holding `connMutex` only in shared (`RLock`) mode, a
mode under which a second `broadcastPosition` call may concurrently iterate
the same map in shared mode — so the deletion is NOT protected against a
concurrent shared-mode iteration, contrary to the claim.  Concretely: with a
registry holding one connection whose write fails, the call performs a map
deletion, its lock mode is shared, and shared is compatible with itself. -/
theorem broadcastPosition_deletes_under_shared_lock :
    broadcastDeletions (fun _ => false) [0] = [0] ∧
    broadcastAcquires = LockMode.shared ∧
    locksCompatible broadcastAcquires broadcastAcquires = true :=
  ⟨rfl, rfl, rfl⟩

/-- C3: for a well-formed `POST /position` request (the body decodes to some
position `p0`), the handler persists before broadcasting: when persistence
fails the caller gets a 500, the state is untouched and no broadcast occurs
(the effect trace is empty); when persistence succeeds the caller gets
200 with body `status: ok` and the effect trace is exactly the successful
persist followed by the broadcast of the same stamped position. -/
theorem handlePosition_persists_before_broadcast
    (writeOk : Conn → Bool) (now : Int) (body : Option Json) (st : ServerState)
    (p0 : GPSPosition) (hdec : body.bind decodeGPSPosition = some p0) :
    handlePosition writeOk false now "POST" body st =
      ({ status := 500, body := Body.textBody "Failed to save position" },
       st, []) ∧
    (handlePosition writeOk true now "POST" body st).1.status = 200 ∧
    (handlePosition writeOk true now "POST" body st).1.body =
      Body.jsonBody (Json.obj [("status", Json.str "ok")]) ∧
    (handlePosition writeOk true now "POST" body st).2.2 =
      [Effect.savePos { p0 with timestamp := now },
       Effect.broadcast { p0 with timestamp := now }] := by
  refine ⟨?_, ?_, ?_, ?_⟩ <;> simp [handlePosition, hdec, savePosition]

/-- C3 witness: a concrete well-formed ingress request, evaluated. -/
theorem handlePosition_persists_before_broadcast_witness :
    (handlePosition (fun _ => true) true 7 "POST"
        (some (Json.obj [("latitude", Json.num 1), ("longitude", Json.num 2)]))
        { store := [], connections := [] }).2.2 =
      [Effect.savePos { latitude := 1, longitude := 2, timestamp := 7 },
       Effect.broadcast { latitude := 1, longitude := 2, timestamp := 7 }] := by
  have h := handlePosition_persists_before_broadcast (fun _ => true) 7
      (some (Json.obj [("latitude", Json.num 1), ("longitude", Json.num 2)]))
      { store := [], connections := [] }
      { latitude := 1, longitude := 2, timestamp := 0 } rfl
  exact h.2.2.2

/-- C4: whatever the decoded payload `p0` carried as timestamp, the position
that is persisted and broadcast carries the server time `now` taken at
ingress: the stored row and both effects use `p0` with its timestamp
overwritten by `now`. -/
theorem handlePosition_overrides_client_timestamp
    (writeOk : Conn → Bool) (now : Int) (body : Option Json) (st : ServerState)
    (p0 : GPSPosition) (hdec : body.bind decodeGPSPosition = some p0) :
    (handlePosition writeOk true now "POST" body st).2.1.store =
      st.store ++ [{ p0 with timestamp := now }] ∧
    (handlePosition writeOk true now "POST" body st).2.2 =
      [Effect.savePos { p0 with timestamp := now },
       Effect.broadcast { p0 with timestamp := now }] := by
  constructor <;> simp [handlePosition, hdec, savePosition]

/-- C4 witness: a payload carrying client timestamp 999 is stored with the
server timestamp 1234 instead. -/
theorem handlePosition_overrides_client_timestamp_witness :
    (handlePosition (fun _ => true) true 1234 "POST"
        (some (Json.obj [("latitude", Json.num 1), ("longitude", Json.num 2),
                         ("timestamp", Json.num 999)]))
        { store := [], connections := [] }).2.1.store =
      [{ latitude := 1, longitude := 2, timestamp := 1234 }] := by
  have h := handlePosition_overrides_client_timestamp (fun _ => true) 1234
      (some (Json.obj [("latitude", Json.num 1), ("longitude", Json.num 2),
                       ("timestamp", Json.num 999)]))
      { store := [], connections := [] }
      { latitude := 1, longitude := 2, timestamp := 999 } rfl
  simpa using h.1

/-- C5 counterexample: latitude and longitude are NOT required fields.  A
`POST /position` whose body is the valid JSON object with no fields at all is
accepted with 200, a row `(0, 0, now)` is persisted, and a broadcast occurs —
the claim that the payload "must deserialize into the two required numeric
fields" fails at this input. -/
theorem handlePosition_accepts_payload_without_coordinates :
    (handlePosition (fun _ => true) true 100 "POST" (some (Json.obj []))
        { store := [], connections := [] }).1.status = 200 ∧
    (handlePosition (fun _ => true) true 100 "POST" (some (Json.obj []))
        { store := [], connections := [] }).2.1.store =
      [{ latitude := 0, longitude := 0, timestamp := 100 }] ∧
    (handlePosition (fun _ => true) true 100 "POST" (some (Json.obj []))
        { store := [], connections := [] }).2.2 ≠ [] := by
  refine ⟨rfl, rfl, ?_⟩
  simp [handlePosition, decodeGPSPosition, decodeFields, savePosition,
    zeroPosition]

/-- C5 (amended): a body that fails to decode (invalid JSON, or a
wrong-typed field) yields a 400 with no side effects — nothing persisted,
nothing broadcast, state unchanged — and a non-POST method yields a 405 with
no side effects; latitude and longitude themselves are optional and default
to 0. -/
theorem handlePosition_client_errors_have_no_side_effects
    (writeOk : Conn → Bool) (saveOk : Bool) (now : Int) (method : String)
    (body : Option Json) (st : ServerState) :
    (body.bind decodeGPSPosition = none →
      handlePosition writeOk saveOk now "POST" body st =
        ({ status := 400, body := Body.textBody "Invalid JSON" }, st, [])) ∧
    (method ≠ "POST" →
      handlePosition writeOk saveOk now method body st =
        ({ status := 405, body := Body.textBody "Method not allowed" },
         st, [])) := by
  constructor
  · intro h; simp [handlePosition, h]
  · intro h; simp [handlePosition, h]

/-- C5 witness: a wrongly-typed body is answered 400 and a GET is answered
405, both leaving the state untouched. -/
theorem handlePosition_client_errors_have_no_side_effects_witness :
    handlePosition (fun _ => true) true 5 "POST" (some (Json.str "oops"))
        { store := [], connections := [] } =
      ({ status := 400, body := Body.textBody "Invalid JSON" },
       { store := [], connections := [] }, []) ∧
    handlePosition (fun _ => true) true 5 "GET" none
        { store := [], connections := [] } =
      ({ status := 405, body := Body.textBody "Method not allowed" },
       { store := [], connections := [] }, []) := by
  constructor
  · exact (handlePosition_client_errors_have_no_side_effects
      (fun _ => true) true 5 "POST" (some (Json.str "oops"))
      { store := [], connections := [] }).1 rfl
  · exact (handlePosition_client_errors_have_no_side_effects
      (fun _ => true) true 5 "GET" none
      { store := [], connections := [] }).2 (by decide)

/-- C6 counterexample: on an empty store, `GET /api/history` answers 200 with
the JSON literal `null` (Go marshals the nil slice as `null`), which is not
the empty JSON array the claim promises. -/
theorem handleHistory_empty_store_answers_null :
    handleHistory "GET" true [] =
      { status := 200, body := Body.jsonBody Json.null } ∧
    Json.null ≠ Json.arr [] :=
  ⟨rfl, fun h => Json.noConfusion h⟩

/-- C6 (amended): `GET /api/history` with a successful query always answers
200 (never an error); a non-empty store is returned as the JSON array of all
stored positions in insertion order, while an empty store is answered with
the JSON literal `null` (the Go encoding of a nil slice) rather than an empty
array. -/
theorem handleHistory_lists_in_insertion_order (store : List GPSPosition) :
    (handleHistory "GET" true store).status = 200 ∧
    (store = [] →
      (handleHistory "GET" true store).body = Body.jsonBody Json.null) ∧
    (store ≠ [] →
      (handleHistory "GET" true store).body =
        Body.jsonBody (Json.arr (store.map encodeGPSPosition))) := by
  refine ⟨rfl, ?_, ?_⟩
  · intro h; subst h; rfl
  · intro h
    have hne : store.isEmpty = false := by
      cases store with
      | nil => exact absurd rfl h
      | cons a l => rfl
    simp [handleHistory, encodePositionsSlice, hne]

/-- C6 witness: a one-element store is returned as a one-element JSON
array. -/
theorem handleHistory_lists_in_insertion_order_witness :
    (handleHistory "GET" true
        [{ latitude := 1, longitude := 2, timestamp := 3 }]).body =
      Body.jsonBody (Json.arr
        [encodeGPSPosition { latitude := 1, longitude := 2, timestamp := 3 }]) :=
  (handleHistory_lists_in_insertion_order
    [{ latitude := 1, longitude := 2, timestamp := 3 }]).2.2 (by simp)

/-- C7: `GET /api/last-position` with a successful query answers 200 carrying
the most recently inserted stored position, and on an empty store it answers
200 with the JSON literal `null` — not an error, not an empty object, not a
404. -/
theorem handleLastPosition_last_or_null (store : List GPSPosition) :
    handleLastPosition "GET" true store =
      { status := 200,
        body := Body.jsonBody
          (Option.elim store.getLast? Json.null encodeGPSPosition) } ∧
    handleLastPosition "GET" true [] =
      { status := 200, body := Body.jsonBody Json.null } := by
  constructor
  · cases h : store.getLast? <;> simp [handleLastPosition, h]
  · rfl

/-- C8: the round-trip scenario — submitting `latitude 52.52, longitude
13.405` via ingress at server time `now` appends exactly the stamped position
to the store, so it is the last element of the full listing, `getLast?`
(`lastOne()`) retrieves it with the same coordinates and the server-assigned
timestamp `now`, and `GET /api/last-position` returns its JSON encoding. -/
theorem ingress_roundtrip_lastOne_listAll (st : ServerState) (now : Int)
    (writeOk : Conn → Bool) :
    (handlePosition writeOk true now "POST" (some roundTripPayload)
        st).2.1.store = st.store ++ [roundTripPosition now] ∧
    ((handlePosition writeOk true now "POST" (some roundTripPayload)
        st).2.1.store).getLast? = some (roundTripPosition now) ∧
    handleLastPosition "GET" true
        (handlePosition writeOk true now "POST" (some roundTripPayload)
          st).2.1.store =
      { status := 200,
        body := Body.jsonBody (encodeGPSPosition (roundTripPosition now)) } := by
  have h1 : (handlePosition writeOk true now "POST" (some roundTripPayload)
      st).2.1.store = st.store ++ [roundTripPosition now] := rfl
  refine ⟨h1, ?_, ?_⟩
  · rw [h1]; exact List.getLast?_concat _
  · rw [h1]; simp [handleLastPosition, List.getLast?_concat]

/-- C9: a failed upgrade leaves the registry untouched and performs nothing;
a successful upgrade of connection `c` registers it, runs the receive loop —
every inbound message is ignored — until the first read error (after any
number `reads` of successful reads), and then unconditionally closes and
deregisters `c`, leaving the registry without `c`: the connection is only
ever Open (registered, reading) or Closed (deregistered, transport
released). -/
theorem handleWebSocket_lifecycle (registry : List Conn) (reads : Nat)
    (c : Conn) :
    handleWebSocket none reads registry = (registry, []) ∧
    (handleWebSocket (some c) reads registry).1 =
      registry.filter (fun x => x != c) ∧
    (handleWebSocket (some c) reads registry).2 =
      [WsEvent.registered c] ++ List.replicate reads WsEvent.readIgnored
        ++ [WsEvent.closed c, WsEvent.deregistered c] := by
  refine ⟨rfl, ?_, rfl⟩
  simp [handleWebSocket, List.filter_append]

/-- C10: `handleConfig` never inspects the method — every HTTP method is
answered 200 with the JSON config `mapStyle` (the environment override or
the hardcoded default) — unlike the other API endpoints, which answer 405 to
any non-matching method. -/
theorem handleConfig_answers_every_method (method env : String)
    (queryOk saveOk : Bool) (store : List GPSPosition) (writeOk : Conn → Bool)
    (now : Int) (body : Option Json) (st : ServerState) :
    handleConfig method env =
      { status := 200,
        body := Body.jsonBody (Json.obj [("mapStyle",
          Json.str (if env = "" then defaultMapStyle else env))]) } ∧
    (method ≠ "GET" → (handleHistory method queryOk store).status = 405) ∧
    (method ≠ "GET" → (handleLastPosition method queryOk store).status = 405) ∧
    (method ≠ "POST" →
      (handlePosition writeOk saveOk now method body st).1.status = 405) := by
  refine ⟨rfl, fun h => ?_, fun h => ?_, fun h => ?_⟩ <;>
    simp [handleHistory, handleLastPosition, handlePosition, h]

/-- C10 witness: the DELETE method is answered 200 by `handleConfig` and 405
by the other endpoints. -/
theorem handleConfig_answers_every_method_witness :
    handleConfig "DELETE" "" =
      { status := 200,
        body := Body.jsonBody
          (Json.obj [("mapStyle", Json.str defaultMapStyle)]) } ∧
    (handleHistory "DELETE" true []).status = 405 ∧
    (handleLastPosition "DELETE" true []).status = 405 ∧
    (handlePosition (fun _ => true) true 0 "DELETE" none
      { store := [], connections := [] }).1.status = 405 := by
  have h := handleConfig_answers_every_method "DELETE" "" true true []
    (fun _ => true) 0 none { store := [], connections := [] }
  exact ⟨h.1, h.2.1 (by decide), h.2.2.1 (by decide), h.2.2.2 (by decide)⟩

end BikeTracker
